import Mathlib

/-!
Verification of the chat-relay server `axiom_server.py`: a single FastAPI
application with one POST endpoint relaying chat requests to a local
inference backend, plus a static front door.  The Python handler is embedded
shallowly: the external backend call (`requests.post` + `raise_for_status` +
`.json()`) is a function parameter producing either a parsed JSON-object
body or a failure carrying the error text of the raised
`requests.exceptions.RequestException`; JSON values are an inductive type;
Python `dict` objects are association lists in insertion order.  Diagnostic
`print` calls have no observable effect on the endpoint's behaviour and are
not modelled.
-/

namespace AxiomServer

/-- JSON-like values, as produced by Python `json` decoding: the history
entries (`List[dict]` in the request model) and the fields of the backend
response body are such values.  Objects are association lists of fields in
insertion order. -/
inductive Json where
  | null : Json
  | bool (b : Bool) : Json
  | num (n : Int) : Json
  | str (s : String) : Json
  | arr (elems : List Json) : Json
  | obj (fields : List (String × Json)) : Json

/-- Python `dict.get(key)` on a JSON value known to be an object (the handler
applies `.get` only to `dict` values); yields `none` when the key is absent. -/
def Json.get : Json → String → Option Json
  | .obj fields, key => fields.lookup key
  | _, _ => none

/-- Whether a JSON value is an object (a Python `dict`). -/
def Json.isObj : Json → Bool
  | .obj _ => true
  | _ => false

/-- Configured backend endpoint (`OLLAMA_API_URL`). -/
def OLLAMA_API_URL : String := "http://localhost:11434/api/chat"

/-- Configured text-model identifier (`TEXT_MODEL_NAME`). -/
def TEXT_MODEL_NAME : String := "llama3:8b"

/-- Configured vision-model identifier (`VISION_MODEL_NAME`). -/
def VISION_MODEL_NAME : String := "llava"

/-- The request model `ChatRequest(BaseModel)`: required `text`, optional
base64 `image` (default `None`), required `history` of dict entries. -/
structure ChatRequest where
  text : String
  image : Option String := none
  history : List Json

/-- The payload built for the backend:
`{"model": current_model, "messages": conversation_history, "stream": False}`. -/
structure Payload where
  model : String
  messages : List Json
  stream : Bool

/-- Outcome of the blocking backend call.  `success` carries the parsed
JSON-object response body (`response.json()`); `failure` carries `str(e)` of
the raised `requests.exceptions.RequestException`, which uniformly covers
connection errors, timeouts, and the non-2xx statuses surfaced by
`raise_for_status()`. -/
inductive BackendResult where
  | success (response_json : List (String × Json)) : BackendResult
  | failure (error : String) : BackendResult

/-- The JSON body returned by the endpoint:
`{"response": ..., "history": conversation_history}`.  The `response` field
is kept as a JSON value because the handler returns
`assistant_message.get("content", "")` verbatim. -/
structure ChatResponse where
  response : Json
  history : List Json

/-- Python truthiness of the optional image string, as tested by
`if request.image:`: `None` and the empty string are falsy. -/
def imageTruthy (image : Option String) : Bool :=
  match image with
  | none => false
  | some s => !s.isEmpty

/-- The model identifier selected by the handler: `current_model` starts as
`TEXT_MODEL_NAME` and is reassigned to `VISION_MODEL_NAME` inside
`if request.image:`. -/
def current_model (request : ChatRequest) : String :=
  if imageTruthy request.image then VISION_MODEL_NAME else TEXT_MODEL_NAME

/-- The new user turn: `{"role": "user", "content": request.text}`, with
`user_message["images"] = [request.image]` appended inside
`if request.image:` (in that branch `request.image = some s` with `s`
non-empty, so `getD` returns that `s`). -/
def user_message (request : ChatRequest) : Json :=
  if imageTruthy request.image then
    Json.obj [("role", Json.str "user"), ("content", Json.str request.text),
              ("images", Json.arr [Json.str (request.image.getD "")])]
  else
    Json.obj [("role", Json.str "user"), ("content", Json.str request.text)]

/-- The history after `conversation_history.append(user_message)`. -/
def updated_history (request : ChatRequest) : List Json :=
  request.history ++ [user_message request]

/-- The payload sent to the backend. -/
def payload (request : ChatRequest) : Payload :=
  { model := current_model request,
    messages := updated_history request,
    stream := false }

/-- The apologetic message built on the failure path:
`f"Désolé, une erreur est survenue en contactant le moteur Axiom. Détails: "`
followed by the error text. -/
def error_response (e : String) : String :=
  "Désolé, une erreur est survenue en contactant le moteur Axiom. Détails: " ++ e

/-- The POST `/api/chat` handler, parameterised by the backend call.  On
success it takes `response_json.get("message", {})`, appends it to the
history and returns its `content` field (default `""`); on failure it
returns the apologetic message with the history as it stood after the user
turn. -/
def chat_with_axiom (backend : Payload → BackendResult)
    (request : ChatRequest) : ChatResponse :=
  let conversation_history := updated_history request
  match backend (payload request) with
  | .success response_json =>
      let assistant_message := (response_json.lookup "message").getD (Json.obj [])
      { response := (assistant_message.get "content").getD (Json.str ""),
        history := conversation_history ++ [assistant_message] }
  | .failure e =>
      { response := Json.str (error_response e),
        history := conversation_history }

/-- Responses of the root route `get_root`: either `FileResponse` on an
existing `index.html`, or an inline `HTMLResponse` (FastAPI default status
200). -/
inductive RootResponse where
  | fileResponse (path : String) : RootResponse
  | htmlResponse (body : String) (status : Nat) : RootResponse

/-- GET `/` handler, parameterised by `os.path.exists("index.html")`. -/
def get_root (indexHtmlExists : Bool) : RootResponse :=
  if indexHtmlExists then .fileResponse "index.html"
  else .htmlResponse "<h1>Fichier index.html non trouvé.</h1>" 200

/-- Modelled from the spec: the FastAPI/pydantic request-validation layer is
framework code not present in `src/`; this decoder follows the declared
request model (`text: str` required, `image: Optional[str] = None`,
`history: List[dict]` required): a missing required field or a wrongly typed
field fails validation. -/
def validateChatRequest (body : Json) : Option ChatRequest :=
  match body with
  | .obj fields =>
      match fields.lookup "text", fields.lookup "history" with
      | some (Json.str t), some (Json.arr hs) =>
          if hs.all Json.isObj then
            match fields.lookup "image" with
            | none => some { text := t, image := none, history := hs }
            | some Json.null => some { text := t, image := none, history := hs }
            | some (Json.str s) => some { text := t, image := some s, history := hs }
            | some _ => none
          else none
      | _, _ => none
  | _ => none

/-- Result of a POST to `/api/chat` as seen on the wire: either the
handler's 200 body, or the framework's validation error status. -/
inductive ApiResult where
  | ok (resp : ChatResponse) : ApiResult
  | validationError (status : Nat) : ApiResult

/-- Modelled from the spec: FastAPI runs request-model validation before the
handler; an invalid body is answered with status 422 and the handler (hence
the backend call) is never reached. -/
def api_chat (backend : Payload → BackendResult) (body : Json) : ApiResult :=
  match validateChatRequest body with
  | some request => .ok ( chat_with_axiom backend request)
  | none => .validationError 422

/-- The healthy backend of Scenario A, answering
`{"message": {"role": "assistant", "content": "hello"}}`. -/
def scenarioA_backend : Payload → BackendResult :=
  fun _ => BackendResult.success
    [("message", Json.obj [("role", Json.str "assistant"),
                           ("content", Json.str "hello")])]

/-- A non-empty string is not `isEmpty` (bridging Python truthiness and
string equality). -/
theorem isEmpty_eq_false_of_ne (s : String) (hs : s ≠ "") : s.isEmpty = false := by
  rw [Bool.eq_false_iff]
  intro hh
  exact hs ((String.isEmpty_iff s).mp hh)

/-- With a present, non-empty image string the `if request.image:` test is
taken. -/
theorem imageTruthy_of_some (s : String) (hs : s ≠ "") :
    imageTruthy (some s) = true := by
  simp [imageTruthy, isEmpty_eq_false_of_ne s hs]

/-- With a present, non-empty image the new user turn is the three-field
object carrying `images = [s]`. -/
theorem user_message_of_image (request : ChatRequest) (s : String)
    (hi : request.image = some s) (hs : s ≠ "") :
    user_message request
      = Json.obj [("role", Json.str "user"), ("content", Json.str request.text),
                  ("images", Json.arr [Json.str s])] := by
  rw [user_message, hi, imageTruthy_of_some s hs]
  simp

/-- On a failed backend call the handler returns the apologetic message and
the history extended by the user turn only. -/
theorem chat_failure_eq (backend : Payload → BackendResult)
    (request : ChatRequest) (e : String)
    (hb : backend (payload request) = .failure e) :
    chat_with_axiom backend request
      = { response := Json.str (error_response e),
          history := updated_history request } := by
  unfold chat_with_axiom
  rw [hb]

/-- On a successful backend call the handler extracts
`response_json.get("message", {})`, appends it, and answers with its
`content` field (default `""`). -/
theorem chat_success_eq (backend : Payload → BackendResult)
    (request : ChatRequest) (response_json : List (String × Json))
    (hb : backend (payload request) = .success response_json) :
    chat_with_axiom backend request
      = { response := (((response_json.lookup "message").getD
            (Json.obj [])).get "content").getD (Json.str ""),
          history := updated_history request
            ++ [(response_json.lookup "message").getD (Json.obj [])] } := by
  unfold chat_with_axiom
  rw [hb]

end AxiomServer

namespace AxiomServer

/-- C1: for a request with empty input history and non-empty text, the
returned history has exactly 2 more entries than the input (user turn then
assistant turn) when the backend call succeeds, and exactly 1 more entry
(the user turn only) when it fails. -/
theorem C1_history_growth (backend : Payload → BackendResult)
    (request : ChatRequest)
    (hhist : request.history = []) (htext : request.text ≠ "") :
    (∀ body, backend (payload request) = .success body →
      ( chat_with_axiom backend request).history.length
        = request.history.length + 2)
    ∧ (∀ e, backend (payload request) = .failure e →
      ( chat_with_axiom backend request).history.length
        = request.history.length + 1) := by
  constructor
  · intro body hb
    rw [chat_success_eq backend request body hb]
    simp [updated_history]
  · intro e hb
    rw [chat_failure_eq backend request e hb]
    simp [updated_history]

/-- C1 witness: the concrete request `{text: "hi", history: []}` against a
healthy backend yields a 2-entry history. -/
theorem C1_history_growth_witness :
    ( chat_with_axiom
        (fun _ => BackendResult.success
          [("message", Json.obj [("role", Json.str "assistant"),
                                 ("content", Json.str "hello")])])
        { text := "hi", history := [] }).history.length = 2 :=
  (C1_history_growth _ { text := "hi", history := [] } rfl
    (by decide)).1 _ rfl

/-- C2: whenever the backend call fails — connection error, timeout or
non-2xx status all surface as one `RequestException` whose text is `e` — the
handler returns normally with the single apologetic message shape embedding
`e` and the history as it stood after the user turn was appended; the
assistant turn is never appended. -/
theorem C2_failure_response (backend : Payload → BackendResult)
    (request : ChatRequest) (e : String)
    (hb : backend (payload request) = .failure e) :
    ( chat_with_axiom backend request)
      = { response := Json.str
            ("Désolé, une erreur est survenue en contactant le moteur Axiom. Détails: "
              ++ e),
          history := request.history ++ [user_message request] } := by
  rw [chat_failure_eq backend request e hb]
  rfl

/-- C2 witness: the concrete request `{text: "hi", history: []}` against an
unreachable backend. -/
theorem C2_failure_response_witness :
    ( chat_with_axiom (fun _ => BackendResult.failure "Connection refused")
        { text := "hi", history := [] })
      = { response := Json.str
            ("Désolé, une erreur est survenue en contactant le moteur Axiom. Détails: "
              ++ "Connection refused"),
          history := [Json.obj [("role", Json.str "user"),
                                ("content", Json.str "hi")]] } :=
  C2_failure_response (fun _ => BackendResult.failure "Connection refused")
    { text := "hi", history := [] } "Connection refused" rfl

/-- C3 counterexample: a present-but-empty image string does NOT switch to
the vision model — `if request.image:` is false on `""`, so the payload
carries the text model, refuting the reading of section 4.1 under which the
switch happens whenever `image` is present, including present-but-empty. -/
theorem C3_counterexample :
    ¬ ((payload { text := "x", image := some "", history := [] }).model
        = VISION_MODEL_NAME)
    ∧ (payload { text := "x", image := some "", history := [] }).model
        = TEXT_MODEL_NAME := by
  constructor
  · intro h
    simp [payload, current_model, imageTruthy, VISION_MODEL_NAME,
          TEXT_MODEL_NAME] at h
    exact absurd h (by decide)
  · rfl

/-- C3 amended: the model identifier placed in the backend payload equals
the vision-model name exactly when `image` is present AND non-empty (Python
truthiness), and equals the text-model name in every other case, including a
present-but-empty image string. -/
theorem C3_model_selection (request : ChatRequest) :
    ((payload request).model = VISION_MODEL_NAME
        ↔ ∃ s, request.image = some s ∧ s ≠ "")
    ∧ ((¬ ∃ s, request.image = some s ∧ s ≠ "") →
        (payload request).model = TEXT_MODEL_NAME) := by
  have hmodel : (payload request).model
      = (if imageTruthy request.image then VISION_MODEL_NAME
         else TEXT_MODEL_NAME) := rfl
  have htruthy : imageTruthy request.image = true
      ↔ ∃ s, request.image = some s ∧ s ≠ "" := by
    cases hi : request.image with
    | none => simp [imageTruthy]
    | some s =>
        simp only [imageTruthy, Bool.not_eq_true', Option.some.injEq]
        constructor
        · intro h
          refine ⟨s, rfl, ?_⟩
          intro hs
          rw [hs] at h
          exact absurd h (by decide)
        · rintro ⟨t, ht, hts⟩
          subst ht
          exact isEmpty_eq_false_of_ne s hts
  constructor
  · rw [hmodel]
    by_cases ht : imageTruthy request.image
    · simp [ht, htruthy.mp ht]
    · simp only [Bool.not_eq_true] at ht
      rw [ht]
      simp only [if_neg Bool.false_ne_true]
      constructor
      · intro h
        exact absurd h (by simp [TEXT_MODEL_NAME, VISION_MODEL_NAME])
      · intro h
        exact absurd (htruthy.mpr h) (by simp [ht])
  · intro h
    rw [hmodel]
    have : imageTruthy request.image ≠ true := fun hh => h (htruthy.mp hh)
    simp [this]

/-- C3 amended witness: at the concrete present-but-empty image the amended
selection rule yields the text model. -/
theorem C3_model_selection_witness :
    (payload { text := "x", image := some "", history := [] }).model
      = TEXT_MODEL_NAME :=
  (C3_model_selection { text := "x", image := some "", history := [] }).2
    (by rintro ⟨s, hs, hne⟩; exact hne (Option.some.inj hs).symm)

/-- C4: on every backend outcome the returned history is a strict extension
of the input history: the input reappears unchanged and in order as a
prefix, followed by a non-empty appended tail. -/
theorem C4_strict_extension (backend : Payload → BackendResult)
    (request : ChatRequest) :
    ∃ tail, tail ≠ [] ∧
      ( chat_with_axiom backend request).history
        = request.history ++ tail := by
  cases hb : backend (payload request) with
  | success response_json =>
      refine ⟨[user_message request,
               (response_json.lookup "message").getD (Json.obj [])],
              by simp, ?_⟩
      rw [chat_success_eq backend request response_json hb]
      simp [updated_history]
  | failure e =>
      refine ⟨[user_message request], by simp, ?_⟩
      rw [chat_failure_eq backend request e hb]
      rfl

/-- C5: with a present, non-empty image the appended user turn carries an
`images` field equal to the one-element list holding exactly that base64
string, and the payload sent to the backend carries the vision model, the
full updated history as `messages`, and `stream = false`. -/
theorem C5_image_payload (request : ChatRequest) (s : String)
    (hi : request.image = some s) (hs : s ≠ "") :
    (user_message request).get "images" = some (Json.arr [Json.str s])
    ∧ payload request
      = { model := VISION_MODEL_NAME,
          messages := request.history ++ [user_message request],
          stream := false } := by
  constructor
  · rw [user_message_of_image request s hi hs]
    rfl
  · rw [payload, current_model, hi, imageTruthy_of_some s hs]
    rfl

/-- C5 witness: Scenario C's request `{text: "describe", image: "AAAA",
history: []}`. -/
theorem C5_image_payload_witness :
    (user_message { text := "describe", image := some "AAAA", history := [] }).get
        "images" = some (Json.arr [Json.str "AAAA"])
    ∧ payload { text := "describe", image := some "AAAA", history := [] }
      = { model := VISION_MODEL_NAME,
          messages := [] ++ [user_message
            { text := "describe", image := some "AAAA", history := [] }],
          stream := false } :=
  C5_image_payload { text := "describe", image := some "AAAA", history := [] }
    "AAAA" rfl (by decide)

/-- C6: on every successful backend call the handler takes
`response_json.get("message", {})` — an object whenever present, per the
backend interface — appends it to the history and returns its `content`
field, defaulting to `""`; in particular a success body lacking `message`
yields a 2-entry extension ending in the empty object, with response `""`. -/
theorem C6_success_extraction (backend : Payload → BackendResult)
    (request : ChatRequest) (response_json : List (String × Json))
    (hb : backend (payload request) = .success response_json)
    (hobj : ∀ j, response_json.lookup "message" = some j → j.isObj = true) :
    ( chat_with_axiom backend request)
      = { response := (((response_json.lookup "message").getD
            (Json.obj [])).get "content").getD (Json.str ""),
          history := request.history
            ++ [user_message request,
                (response_json.lookup "message").getD (Json.obj [])] }
    ∧ (response_json.lookup "message" = none →
        ( chat_with_axiom backend request)
          = { response := Json.str "",
              history := request.history
                ++ [user_message request, Json.obj []] }) := by
  have h := chat_success_eq backend request response_json hb
  constructor
  · rw [h]
    simp [updated_history]
  · intro hnone
    rw [h, hnone]
    simp [updated_history, Json.get]

/-- C6 witness: a success body with no `message` key for the request
`{text: "hi", history: []}`. -/
theorem C6_success_extraction_witness :
    ( chat_with_axiom (fun _ => BackendResult.success [("done", Json.bool true)])
        { text := "hi", history := [] })
      = { response := Json.str "",
          history := [user_message { text := "hi", history := [] },
                      Json.obj []] } :=
  (C6_success_extraction (fun _ => BackendResult.success [("done", Json.bool true)])
      { text := "hi", history := [] } [("done", Json.bool true)] rfl
      (by intro j hj; simp [List.lookup] at hj)).2 rfl

/-- C7: Scenario A — `{text: "hi", history: []}` against the healthy backend
returns exactly `{"response": "hello", "history": [{"role": "user",
"content": "hi"}, {"role": "assistant", "content": "hello"}]}`. -/
theorem C7_scenario_a :
    ( chat_with_axiom scenarioA_backend { text := "hi", history := [] })
      = { response := Json.str "hello",
          history := [Json.obj [("role", Json.str "user"),
                                ("content", Json.str "hi")],
                      Json.obj [("role", Json.str "assistant"),
                                ("content", Json.str "hello")]] } := rfl

/-- C8: GET `/` answers the inline not-found HTML notice with status 200
when no `index.html` is present, and serves the file when it is present. -/
theorem C8_root_route :
    get_root false
      = RootResponse.htmlResponse "<h1>Fichier index.html non trouvé.</h1>" 200
    ∧ get_root true = RootResponse.fileResponse "index.html" :=
  ⟨rfl, rfl⟩

/-- C9: a request body that fails request-model validation — in particular
one missing the required `text` or `history` field — is answered with status
422 without running the relay handler, and the outcome is independent of the
backend, which is therefore never contacted. -/
theorem C9_invalid_body_rejected (backend₁ backend₂ : Payload → BackendResult) :
    (∀ body, validateChatRequest body = none →
        api_chat backend₁ body = ApiResult.validationError 422
        ∧ api_chat backend₁ body = api_chat backend₂ body)
    ∧ (∀ fields, (fields.lookup "text" = none ∨ fields.lookup "history" = none) →
        validateChatRequest (Json.obj fields) = none) := by
  constructor
  · intro body hv
    constructor
    · rw [api_chat, hv]
    · rw [api_chat, hv, api_chat, hv]
  · intro fields h
    rcases h with h | h
    · rw [validateChatRequest, h]
    · rw [validateChatRequest, h]
      cases ht : fields.lookup "text" with
      | none => rfl
      | some j => cases j <;> rfl

/-- C9 witness: the empty JSON object (missing both required fields) is
rejected with 422 under two different backends. -/
theorem C9_invalid_body_rejected_witness :
    api_chat (fun _ => BackendResult.failure "down") (Json.obj [])
      = ApiResult.validationError 422
    ∧ api_chat (fun _ => BackendResult.failure "down") (Json.obj [])
      = api_chat (fun _ => BackendResult.success []) (Json.obj []) :=
  (C9_invalid_body_rejected (fun _ => BackendResult.failure "down")
    (fun _ => BackendResult.success [])).1 (Json.obj []) rfl

/-- C10: with a present, non-empty image the user turn placed in the
returned history — at the position right after the input history, on the
success path and on the failure path alike — still carries the `images`
field holding exactly the given base64 string: it is echoed back, never
stripped. -/
theorem C10_image_echoed (backend : Payload → BackendResult)
    (request : ChatRequest) (s : String)
    (hi : request.image = some s) (hs : s ≠ "") :
    ( chat_with_axiom backend request).history[request.history.length]?
        = some (user_message request)
    ∧ (user_message request).get "images" = some (Json.arr [Json.str s]) := by
  constructor
  · cases hb : backend (payload request) with
    | success response_json =>
        rw [chat_success_eq backend request response_json hb, updated_history]
        rw [List.append_assoc]
        rw [List.getElem?_append_right (Nat.le_refl _), Nat.sub_self]
        rfl
    | failure e =>
        rw [chat_failure_eq backend request e hb, updated_history]
        show (request.history ++ [user_message request])[request.history.length]?
            = some (user_message request)
        rw [List.getElem?_append_right (Nat.le_refl _), Nat.sub_self]
        rfl
  · rw [user_message_of_image request s hi hs]
    rfl

/-- C10 witness: the image `"AAAA"` survives into the returned history on a
failed backend call. -/
theorem C10_image_echoed_witness :
    ( chat_with_axiom (fun _ => BackendResult.failure "timeout")
        { text := "describe", image := some "AAAA", history := [] }).history[(0 : Nat)]?
      = some (user_message
          { text := "describe", image := some "AAAA", history := [] })
    ∧ (user_message
        { text := "describe", image := some "AAAA", history := [] }).get "images"
      = some (Json.arr [Json.str "AAAA"]) :=
  C10_image_echoed (fun _ => BackendResult.failure "timeout")
    { text := "describe", image := some "AAAA", history := [] } "AAAA" rfl
    (by decide)

end AxiomServer
